import Mathlib

/-!
Verification of the dex-trade-api client (`api.py`) against its design
specification.  The development shallowly embeds the Signing Engine
(`_generate_signature`), the Request Dispatcher (`_make_request`), client
construction (`__init__`) and the endpoint wrappers the claims touch
(`get_ticker`, `get_balances`, `create_order`).

Modelling conventions:
* Python dicts are association lists (`List (key × value)`) in insertion
  order; dict-hood (key uniqueness) appears as `Nodup` hypotheses where a
  theorem depends on it.
* Python string ordering (code-point lexicographic) is `strLe`, and
  `sorted(...)` is the stable `List.insertionSort` by key under `strLe`.
* The wall clock read by `str(int(time.time() * 1000000))` is an explicit
  `now : Nat` argument (microseconds since epoch).
* The HTTP transport is external: `_make_request` returns the `Request`
  it would hand to the transport (one `Request` value = one transport
  invocation) next to the updated session-header state and the caller's
  parameter object after the call.  An `Except.error` first component
  means the call failed before any transport invocation.
* `hashlib.sha256(...).hexdigest()` is modelled by a concrete FIPS 180-4
  SHA-256 implementation rendering a lowercase hexadecimal string.
-/

/-! ## SHA-256 (model of `hashlib.sha256(..).hexdigest()`) -/

namespace SHA256

/-- Truncation to a 32-bit word. -/
def mask32 (n : Nat) : Nat := n % 4294967296

/-- Right rotation of a 32-bit word (the argument is assumed `< 2^32`). -/
def rotr (n x : Nat) : Nat := mask32 ((x >>> n) ||| (x <<< (32 - n)))

/-- Round constants (FIPS 180-4 §4.2.2), written in decimal. -/
def K : List Nat :=
  [1116352408, 1899447441, 3049323471, 3921009573, 961987163,
   1508970993, 2453635748, 2870763221, 3624381080, 310598401,
   607225278, 1426881987, 1925078388, 2162078206, 2614888103,
   3248222580, 3835390401, 4022224774, 264347078, 604807628,
   770255983, 1249150122, 1555081692, 1996064986, 2554220882,
   2821834349, 2952996808, 3210313671, 3336571891, 3584528711,
   113926993, 338241895, 666307205, 773529912, 1294757372,
   1396182291, 1695183700, 1986661051, 2177026350, 2456956037,
   2730485921, 2820302411, 3259730800, 3345764771, 3516065817,
   3600352804, 4094571909, 275423344, 430227734, 506948616,
   659060556, 883997877, 958139571, 1322822218, 1537002063,
   1747873779, 1955562222, 2024104815, 2227730452, 2361852424,
   2428436474, 2756734187, 3204031479, 3329325298]

/-- Working state: eight 32-bit words. -/
structure Hs where
  a : Nat
  b : Nat
  c : Nat
  d : Nat
  e : Nat
  f : Nat
  g : Nat
  h : Nat
deriving DecidableEq

/-- Initial hash value (FIPS 180-4 §5.3.3), written in decimal. -/
def h0 : Hs :=
  ⟨1779033703, 3144134277, 1013904242, 2773480762,
   1359893119, 2600822924, 528734635, 1541459225⟩

/-- One compression round; `kw` is `K i + W i` already reduced mod `2^32`. -/
def round (s : Hs) (kw : Nat) : Hs :=
  let s1 := (rotr 6 s.e) ^^^ (rotr 11 s.e) ^^^ (rotr 25 s.e)
  let ch := (s.e &&& s.f) ^^^ ((s.e ^^^ 4294967295) &&& s.g)
  let t1 := mask32 (s.h + s1 + ch + kw)
  let s0 := (rotr 2 s.a) ^^^ (rotr 13 s.a) ^^^ (rotr 22 s.a)
  let mj := (s.a &&& s.b) ^^^ (s.a &&& s.c) ^^^ (s.b &&& s.c)
  let t2 := mask32 (s0 + mj)
  ⟨mask32 (t1 + t2), s.a, s.b, s.c, mask32 (s.d + t1), s.e, s.f, s.g⟩

/-- Small sigma 0 (message schedule). -/
def ssig0 (x : Nat) : Nat := (rotr 7 x) ^^^ (rotr 18 x) ^^^ (x >>> 3)

/-- Small sigma 1 (message schedule). -/
def ssig1 (x : Nat) : Nat := (rotr 17 x) ^^^ (rotr 19 x) ^^^ (x >>> 10)

/-- Extend a 16-word block by `n` further schedule words. -/
def extendW : Nat → Array Nat → Array Nat
  | 0, w => w
  | n + 1, w =>
      let i := w.size
      let nw := mask32 (w.getD (i - 16) 0 + ssig0 (w.getD (i - 15) 0) +
                        w.getD (i - 7) 0 + ssig1 (w.getD (i - 2) 0))
      extendW n (w.push nw)

/-- Big-endian 32-bit words from a byte list. -/
def toWords : List Nat → List Nat
  | b0 :: b1 :: b2 :: b3 :: rest =>
      (((b0 * 256 + b1) * 256 + b2) * 256 + b3) :: toWords rest
  | _ => []

/-- Compress one 64-byte block into the running state. -/
def processBlock (hs : Hs) (block : List Nat) : Hs :=
  let w := extendW 48 (toWords block).toArray
  let s := (K.zip w.toList).foldl (fun st kw => round st (mask32 (kw.1 + kw.2))) hs
  ⟨mask32 (hs.a + s.a), mask32 (hs.b + s.b), mask32 (hs.c + s.c), mask32 (hs.d + s.d),
   mask32 (hs.e + s.e), mask32 (hs.f + s.f), mask32 (hs.g + s.g), mask32 (hs.h + s.h)⟩

/-- Process `n` consecutive 64-byte blocks. -/
def processN : Nat → Hs → List Nat → Hs
  | 0, hs, _ => hs
  | n + 1, hs, bytes => processN n (processBlock hs (bytes.take 64)) (bytes.drop 64)

/-- Big-endian byte rendering of a value on a fixed number of bytes. -/
def beBytes : Nat → Nat → List Nat
  | 0, _ => []
  | n + 1, v => beBytes n (v / 256) ++ [v % 256]

/-- SHA-256 padding: `0x80`, zeros to 56 mod 64, then the 64-bit bit length. -/
def pad (msg : List Nat) : List Nat :=
  msg ++ [128] ++ List.replicate ((119 - msg.length % 64) % 64) 0 ++ beBytes 8 (8 * msg.length)

/-- Lowercase hexadecimal digit. -/
def hexDigit (n : Nat) : Char := if n < 10 then Char.ofNat (48 + n) else Char.ofNat (87 + n)

/-- Lowercase hexadecimal rendering of a value on a fixed number of digits. -/
def hexN : Nat → Nat → String
  | 0, _ => ""
  | n + 1, v => hexN n (v / 16) ++ String.singleton (hexDigit (v % 16))

/-- SHA-256 digest of a byte list, as a lowercase hexadecimal string. -/
def sha256Bytes (msg : List Nat) : String :=
  let p := pad msg
  let hs := processN (p.length / 64) h0 p
  hexN 8 hs.a ++ hexN 8 hs.b ++ hexN 8 hs.c ++ hexN 8 hs.d ++
  hexN 8 hs.e ++ hexN 8 hs.f ++ hexN 8 hs.g ++ hexN 8 hs.h

/-- SHA-256 hex digest of a string's UTF-8 encoding: the model of
`hashlib.sha256(s.encode()).hexdigest()`. -/
def sha256hex (s : String) : String :=
  sha256Bytes (s.toUTF8.toList.map (fun b => b.toNat))

end SHA256

/-! ## Parameter Sets (Python dicts of request fields) -/

/-- Scalar parameter values, with Python's `str(...)` rendering. -/
inductive Scalar where
  | s : String → Scalar
  | i : Int → Scalar
  | b : Bool → Scalar
deriving DecidableEq

/-- Python `str(...)` of a scalar. -/
def Scalar.pyStr : Scalar → String
  | Scalar.s v => v
  | Scalar.i v => toString v
  | Scalar.b true => "True"
  | Scalar.b false => "False"

/-- A parameter value: a scalar, or a one-level-deep nested mapping
(the spec supports no deeper nesting). -/
inductive Value where
  | scalar : Scalar → Value
  | dict : List (String × Scalar) → Value
deriving DecidableEq

/-- A Parameter Set: a Python dict in insertion order. -/
abbrev Params := List (String × Value)

/-- The keys of a Parameter Set, in insertion order. -/
def keysOf (p : Params) : List String := p.map Prod.fst

/-- Dict lookup: the value stored under a key, if any. -/
def getParam? (p : Params) (k : String) : Option Value :=
  (p.find? (fun kv => kv.1 == k)).map (fun kv => kv.2)

/-- Code-point lexicographic comparison of character lists: Python's
string `<=`. -/
def charsLe : List Char → List Char → Bool
  | [], _ => true
  | _ :: _, [] => false
  | a :: as, b :: bs =>
      if a.toNat < b.toNat then true
      else if b.toNat < a.toNat then false
      else charsLe as bs

/-- Python string comparison `s <= t` (code-point lexicographic). -/
def strLe (s t : String) : Bool := charsLe s.data t.data

/-- Python `sorted(d.items())` on a dict: stable sort of the entries by
key.  (Python compares the `(key, value)` tuples, but with the distinct
keys of a dict the comparison never reaches the values.) -/
def sortByKey {α : Type} (l : List (String × α)) : List (String × α) :=
  List.insertionSort (fun x y => strLe x.1 y.1 = true) l

/-! ## Configuration, errors, session state -/

/-- Configuration for the DexTrade API client (`DexTradeConfig`). -/
structure DexTradeConfig where
  base_url : String
  socket_url : String
  login_token : Option String
  secret : Option String
deriving DecidableEq

/-- Python truthiness of an optional string: `None` and `""` are falsy. -/
def pyTruthyStr : Option String → Bool
  | none => false
  | some s => !(s == "")

/-- Error conditions raised by the client before any transport
invocation.  Both are `ValueError`s in the source; the spec names them
`MissingSecret` and `InvalidArgument`. -/
inductive ApiError where
  | missingSecret
  | invalidArgument
deriving DecidableEq

/-- The persistent per-session header state (`self.session.headers`),
restricted to the headers this client manages. -/
structure ClientState where
  headers : List (String × String)
deriving DecidableEq

/-- HTTP methods used by the client. -/
inductive Method where
  | GET
  | POST
deriving DecidableEq

/-- The request handed to the HTTP transport: one `Request` value is one
transport invocation.  `params` is the query string (GET) or JSON body
(POST); `headers` is the header set the session sends with the request. -/
structure Request where
  method : Method
  url : String
  params : Option Params
  headers : List (String × String)
deriving DecidableEq

/-- Python dict update of a header mapping: overwrite in place if the key
exists, else append. -/
def updateHeader (hs : List (String × String)) (k v : String) : List (String × String) :=
  if hs.any (fun p => p.1 == k) then hs.map (fun p => if p.1 == k then (k, v) else p)
  else hs ++ [(k, v)]

/-- Client construction (`DexTradeAPI.__init__`): a fresh session whose
headers get `login-token` and `content-type` only inside the
`if config.login_token:` branch. -/
def DexTradeAPI_init (cfg : DexTradeConfig) : ClientState :=
  if pyTruthyStr cfg.login_token then
    ⟨updateHeader (updateHeader [] "login-token" (cfg.login_token.getD ""))
      "content-type" "application/json"⟩
  else ⟨[]⟩

/-! ## Signing Engine (`_generate_signature`) -/

/-- The value strings one entry contributes to the accumulator `values`:
for a nested dict, the `str(...)` of its values in key-sorted order
(`values.extend(...)`); otherwise the `str(...)` of the scalar
(`values.append(...)`). -/
def valueStrings : Value → List String
  | Value.scalar sc => [sc.pyStr]
  | Value.dict d => (sortByKey d).map (fun nkv => Scalar.pyStr nkv.2)

/-- Concatenation of a list of strings (`''.join(values)`). -/
def joinAll : List String → String
  | [] => ""
  | x :: xs => x ++ joinAll xs

/-- The accumulator `values` of `_generate_signature`: iterate over the
key-sorted entries, appending or extending. -/
def signatureValues (params : Params) : List String :=
  (sortByKey params).foldl (fun values kv => values ++ valueStrings kv.2) []

/-- The string `values_str` that gets hashed: the joined value strings
followed by the raw secret. -/
def signingString (params : Params) (secret : String) : String :=
  joinAll (signatureValues params) ++ secret

/-- The Signing Engine (`_generate_signature`): fails closed when the
secret is `None` or empty, else hashes `values_str`. -/
def _generate_signature (secret : Option String) (params : Params) : Except ApiError String :=
  match secret with
  | none => Except.error ApiError.missingSecret
  | some s =>
      if s = "" then Except.error ApiError.missingSecret
      else Except.ok (SHA256.sha256hex (signingString params s))

/-! ## Request Dispatcher (`_make_request`) -/

/-- The `request_id` entry synthesized from the wall clock
(`str(int(time.time() * 1000000))`), with `now` the clock reading in
microseconds since epoch. -/
def ridEntry (now : Nat) : String × Value :=
  ("request_id", Value.scalar (Scalar.s (Nat.repr now)))

/-- The Request Dispatcher (`_make_request`).  Returns the request handed
to the transport (or the error that aborted the call before any transport
invocation), the session state after the call, and the caller's parameter
object after the call (Python passes the dict by reference: `if not
params: params = {}` rebinds to a fresh dict, so the caller's object is
mutated only when it was a non-empty dict). -/
def _make_request (cfg : DexTradeConfig) (st : ClientState) (now : Nat) (method : Method)
    (endpoint : String) (params : Option Params) (priv : Bool) :
    Except ApiError Request × ClientState × Option Params :=
  let url := cfg.base_url ++ endpoint
  if priv then
    let fresh := (params.getD []).isEmpty
    let p0 := if fresh then [] else params.getD []
    let p1 := if (keysOf p0).contains "request_id" then p0 else p0 ++ [ridEntry now]
    let callerAfter := if fresh then params else some p1
    match _generate_signature cfg.secret p1 with
    | Except.error e => (Except.error e, st, callerAfter)
    | Except.ok sig =>
        let st' : ClientState := ⟨updateHeader st.headers "x-auth-sign" sig⟩
        (Except.ok ⟨method, url, some p1, st'.headers⟩, st', callerAfter)
  else
    (Except.ok ⟨method, url, params, st.headers⟩, st, params)

/-! ## Endpoint wrappers -/

/-- Public endpoint `get_ticker`: `GET /public/ticker` with the pair as a
query parameter, not private. -/
def get_ticker (cfg : DexTradeConfig) (st : ClientState) (now : Nat) (pair : String) :
    Except ApiError Request × ClientState × Option Params :=
  _make_request cfg st now Method.GET "/public/ticker"
    (some [("pair", Value.scalar (Scalar.s pair))]) false

/-- Private endpoint `get_balances`: `POST /private/balances` with an
empty parameter dict. -/
def get_balances (cfg : DexTradeConfig) (st : ClientState) (now : Nat) :
    Except ApiError Request × ClientState × Option Params :=
  _make_request cfg st now Method.POST "/private/balances" (some []) true

/-- Order side (`OrderType`), with its wire value. -/
inductive OrderType where
  | BUY
  | SELL
deriving DecidableEq

/-- Wire value of an `OrderType` (`.value` in Python). -/
def OrderType.value : OrderType → Int
  | OrderType.BUY => 0
  | OrderType.SELL => 1

/-- Trade type (`TradeType`), with its wire value. -/
inductive TradeType where
  | LIMIT
  | MARKET
  | STOP_LIMIT
  | QUICK_MARKET
  | HIDDEN_LIMIT
deriving DecidableEq

/-- Wire value of a `TradeType` (`.value` in Python). -/
def TradeType.value : TradeType → Int
  | TradeType.LIMIT => 0
  | TradeType.MARKET => 1
  | TradeType.STOP_LIMIT => 2
  | TradeType.QUICK_MARKET => 3
  | TradeType.HIDDEN_LIMIT => 4

/-- A Python float, modelled by its `str(...)` rendering (the only use
the client makes of float values is string-encoding them into
parameters; float arithmetic never occurs). -/
structure PyFloat where
  repr : String
deriving DecidableEq

/-- Private endpoint `create_order`: assembles the order parameters,
validates the rate/stop_rate combinations before dispatch, and posts to
`/private/create-order` as a private call. -/
def create_order (cfg : DexTradeConfig) (st : ClientState) (now : Nat) (pair : String)
    (type_trade : TradeType) (order_type : OrderType) (volume : PyFloat)
    (rate : Option PyFloat) (stop_rate : Option PyFloat) :
    Except ApiError Request × ClientState × Option Params :=
  let params0 : Params :=
    [("pair", Value.scalar (Scalar.s pair)),
     ("type_trade", Value.scalar (Scalar.i type_trade.value)),
     ("type", Value.scalar (Scalar.i order_type.value)),
     ("volume", Value.scalar (Scalar.s volume.repr))]
  let step1 : Except ApiError Params :=
    if type_trade = TradeType.LIMIT ∨ type_trade = TradeType.STOP_LIMIT then
      match rate with
      | none => Except.error ApiError.invalidArgument
      | some r => Except.ok (params0 ++ [("rate", Value.scalar (Scalar.s r.repr))])
    else Except.ok params0
  match step1 with
  | Except.error e => (Except.error e, st, none)
  | Except.ok pa =>
      let step2 : Except ApiError Params :=
        if type_trade = TradeType.STOP_LIMIT then
          match stop_rate with
          | none => Except.error ApiError.invalidArgument
          | some sr => Except.ok (pa ++ [("stop_rate", Value.scalar (Scalar.s sr.repr))])
        else Except.ok pa
      match step2 with
      | Except.error e => (Except.error e, st, none)
      | Except.ok pb => _make_request cfg st now Method.POST "/private/create-order" (some pb) true

/-! ## The signing input as the specification words it -/

/-- The signing input exactly as the specification describes it: sort the
top-level entries by key ascending; for each entry take the string form
of the scalar value, or for a nested mapping the concatenation of the
string forms of the nested values in nested-key-sorted order (nested keys
omitted); concatenate all those entry strings with no separators and
append the raw secret. -/
def specSigningString (params : Params) (secret : String) : String :=
  joinAll ((sortByKey params).map (fun kv =>
    match kv.2 with
    | Value.scalar sc => sc.pyStr
    | Value.dict d => joinAll ((sortByKey d).map (fun nkv => nkv.2.pyStr)))) ++ secret

/-! ## Properties of the Python string order -/

/-- Totality of code-point lexicographic comparison. -/
theorem charsLe_total : ∀ as bs : List Char, charsLe as bs = true ∨ charsLe bs as = true
  | [], _ => Or.inl rfl
  | _ :: _, [] => Or.inr rfl
  | a :: as, b :: bs => by
      rcases Nat.lt_trichotomy a.toNat b.toNat with h | h | h
      · left; simp [charsLe, h]
      · rcases charsLe_total as bs with hr | hr
        · left; simp [charsLe, h, hr]
        · right; simp [charsLe, h.symm, hr]
      · right; simp [charsLe, h]

/-- Transitivity of code-point lexicographic comparison. -/
theorem charsLe_trans : ∀ as bs cs : List Char,
    charsLe as bs = true → charsLe bs cs = true → charsLe as cs = true
  | [], _, _, _, _ => rfl
  | _ :: _, [], _, h1, _ => by simp [charsLe] at h1
  | _ :: _, _ :: _, [], _, h2 => by simp [charsLe] at h2
  | a :: as, b :: bs, c :: cs, h1, h2 => by
      simp only [charsLe] at h1 h2 ⊢
      split_ifs at h1 h2 ⊢ <;>
        first
          | rfl
          | (exfalso; omega)
          | (exact charsLe_trans as bs cs h1 h2)

/-- Antisymmetry of code-point lexicographic comparison. -/
theorem charsLe_antisymm : ∀ as bs : List Char,
    charsLe as bs = true → charsLe bs as = true → as = bs
  | [], [], _, _ => rfl
  | [], _ :: _, _, h2 => by simp [charsLe] at h2
  | _ :: _, [], h1, _ => by simp [charsLe] at h1
  | a :: as, b :: bs, h1, h2 => by
      simp only [charsLe] at h1 h2
      by_cases hab : a.toNat < b.toNat
      · have hba : ¬ b.toNat < a.toNat := by omega
        rw [if_neg hba, if_pos hab] at h2
        exact absurd h2 (by simp)
      · by_cases hba : b.toNat < a.toNat
        · rw [if_neg hab, if_pos hba] at h1
          exact absurd h1 (by simp)
        · rw [if_neg hab, if_neg hba] at h1
          rw [if_neg hba, if_neg hab] at h2
          have hn : a.toNat = b.toNat := by omega
          rw [Char.ext (UInt32.ext hn), charsLe_antisymm as bs h1 h2]

/-- Totality of `strLe`. -/
theorem strLe_total (s t : String) : strLe s t = true ∨ strLe t s = true :=
  charsLe_total s.data t.data

/-- Transitivity of `strLe`. -/
theorem strLe_trans (s t u : String) : strLe s t = true → strLe t u = true → strLe s u = true :=
  charsLe_trans s.data t.data u.data

/-- Antisymmetry of `strLe`. -/
theorem strLe_antisymm (s t : String) (h1 : strLe s t = true) (h2 : strLe t s = true) : s = t :=
  String.ext (charsLe_antisymm s.data t.data h1 h2)

/-- A stable key sort of two dict snapshots with the same entries (and
genuinely dict-like: no duplicate keys) produces the same list. -/
theorem sortByKey_eq_of_perm {α : Type} (p1 p2 : List (String × α))
    (hnd : (p1.map Prod.fst).Nodup) (hperm : p1.Perm p2) :
    sortByKey p1 = sortByKey p2 := by
  haveI : IsTotal (String × α) (fun x y => strLe x.1 y.1 = true) :=
    ⟨fun x y => strLe_total x.1 y.1⟩
  haveI : IsTrans (String × α) (fun x y => strLe x.1 y.1 = true) :=
    ⟨fun x y z => strLe_trans x.1 y.1 z.1⟩
  have hperm1 : (sortByKey p1).Perm p1 := List.perm_insertionSort _ _
  have hperm2 : (sortByKey p2).Perm p2 := List.perm_insertionSort _ _
  have hs1 : List.Sorted (fun x y => strLe x.1 y.1 = true) (sortByKey p1) :=
    List.sorted_insertionSort _ _
  have hs2 : List.Sorted (fun x y => strLe x.1 y.1 = true) (sortByKey p2) :=
    List.sorted_insertionSort _ _
  have hnd2 : (p2.map Prod.fst).Nodup := ((hperm.map Prod.fst).nodup_iff).mp hnd
  have hne1 : List.Pairwise (fun x y : String × α => x.1 ≠ y.1) (sortByKey p1) :=
    List.pairwise_map.mp (((hperm1.map Prod.fst).nodup_iff).mpr hnd)
  have hne2 : List.Pairwise (fun x y : String × α => x.1 ≠ y.1) (sortByKey p2) :=
    List.pairwise_map.mp (((hperm2.map Prod.fst).nodup_iff).mpr hnd2)
  haveI : IsAntisymm (String × α) (fun x y => strLe x.1 y.1 = true ∧ x.1 ≠ y.1) :=
    ⟨fun x y hx hy => absurd (strLe_antisymm _ _ hx.1 hy.1) hx.2⟩
  exact List.eq_of_perm_of_sorted (hperm1.trans (hperm.trans hperm2.symm))
    (hs1.and hne1) (hs2.and hne2)

/-! ## Properties of the signing input -/

/-- Concatenation distributes over list append. -/
theorem joinAll_append : ∀ xs ys : List String, joinAll (xs ++ ys) = joinAll xs ++ joinAll ys
  | [], _ => rfl
  | x :: xs, ys => by
      rw [List.cons_append]
      show x ++ joinAll (xs ++ ys) = (x ++ joinAll xs) ++ joinAll ys
      rw [joinAll_append xs ys, String.append_assoc]

/-- The accumulator loop of `_generate_signature` flattens the per-entry
value-string lists. -/
theorem foldl_values_eq : ∀ (l : List (String × Value)) (init : List String),
    l.foldl (fun values kv => values ++ valueStrings kv.2) init
      = init ++ (l.map (fun kv => valueStrings kv.2)).flatten
  | [], init => by simp
  | kv :: l, init => by
      rw [List.foldl_cons, foldl_values_eq l (init ++ valueStrings kv.2)]
      simp [List.append_assoc]

/-- Refinement: the string hashed by the code equals the signing input as
the specification words it. -/
theorem signingString_eq_spec (params : Params) (secret : String) :
    signingString params secret = specSigningString params secret := by
  unfold signingString specSigningString signatureValues
  rw [foldl_values_eq, List.nil_append]
  congr 1
  induction sortByKey params with
  | nil => rfl
  | cons kv l ih =>
      rw [List.map_cons, List.map_cons, List.flatten_cons, joinAll_append, ih]
      congr 1
      cases hv : kv.2 with
      | scalar sc => simp [valueStrings, joinAll, String.append_empty]
      | dict d => rfl

/-- With a truthy secret, the Signing Engine succeeds and hashes exactly
`values_str`. -/
theorem _generate_signature_ok (s : String) (hs : s ≠ "") (params : Params) :
    _generate_signature (some s) params
      = Except.ok (SHA256.sha256hex (signingString params s)) := by
  simp [_generate_signature, hs]

/-! ## Claims -/

/-- C1: for every Parameter Set (a dict: no duplicate top-level keys) and
every non-empty secret, `sign` produces the lowercase-hexadecimal SHA-256
digest of exactly the string the specification describes: top-level
entries sorted by key ascending, each contributing the string form of its
scalar value or the string forms of its nested values in nested-key-sorted
order (nested keys omitted), concatenated with no separator, with the raw
secret appended; in particular the example Parameter Set
`a ↦ (y ↦ 2, x ↦ 1), b ↦ 3` hashes `"1" ++ "2" ++ "3" ++ secret`. -/
theorem claim_C1 (params : Params) (secret : String) (hs : secret ≠ "")
    (hwf : (params.map Prod.fst).Nodup) :
    _generate_signature (some secret) params
        = Except.ok (SHA256.sha256hex (specSigningString params secret)) ∧
    _generate_signature (some secret)
        [("a", Value.dict [("y", Scalar.s "2"), ("x", Scalar.s "1")]),
         ("b", Value.scalar (Scalar.s "3"))]
        = Except.ok (SHA256.sha256hex ("1" ++ "2" ++ "3" ++ secret)) := by
  constructor
  · rw [_generate_signature_ok secret hs, signingString_eq_spec]
  · rw [_generate_signature_ok secret hs]
    have hvals : signatureValues
        [("a", Value.dict [("y", Scalar.s "2"), ("x", Scalar.s "1")]),
         ("b", Value.scalar (Scalar.s "3"))] = ["1", "2", "3"] := by decide
    have hr : ("1" : String) ++ "2" ++ "3" = "123" := by decide
    unfold signingString
    rw [hvals, hr]
    have hj : joinAll ["1", "2", "3"] = "123" := by decide
    rw [hj]

/-- Witness for C1 at the spec's example Parameter Set with secret `"s"`. -/
theorem claim_C1_witness :
    (("s" : String) ≠ "" ∧
      (([("a", Value.dict [("y", Scalar.s "2"), ("x", Scalar.s "1")]),
         ("b", Value.scalar (Scalar.s "3"))] : Params).map Prod.fst).Nodup) ∧
    (_generate_signature (some "s")
        [("a", Value.dict [("y", Scalar.s "2"), ("x", Scalar.s "1")]),
         ("b", Value.scalar (Scalar.s "3"))]
        = Except.ok (SHA256.sha256hex (specSigningString
            [("a", Value.dict [("y", Scalar.s "2"), ("x", Scalar.s "1")]),
             ("b", Value.scalar (Scalar.s "3"))] "s")) ∧
     _generate_signature (some "s")
        [("a", Value.dict [("y", Scalar.s "2"), ("x", Scalar.s "1")]),
         ("b", Value.scalar (Scalar.s "3"))]
        = Except.ok (SHA256.sha256hex ("1" ++ "2" ++ "3" ++ "s"))) :=
  ⟨⟨by decide, by decide⟩, claim_C1 _ "s" (by decide) (by decide)⟩

/-- C2: `sign` is invariant under permutation of entry order: two
Parameter Sets with exactly the same key-value pairs in different
insertion orders produce the identical signature under any fixed
configured secret. -/
theorem claim_C2 (p1 p2 : Params) (secret : Option String)
    (hwf : (p1.map Prod.fst).Nodup) (hperm : p1.Perm p2) :
    _generate_signature secret p1 = _generate_signature secret p2 := by
  have hsort : sortByKey p1 = sortByKey p2 := sortByKey_eq_of_perm p1 p2 hwf hperm
  have hvals : signatureValues p1 = signatureValues p2 := by
    unfold signatureValues
    rw [hsort]
  cases secret with
  | none => rfl
  | some s =>
      by_cases hse : s = ""
      · simp [_generate_signature, hse]
      · rw [_generate_signature_ok s hse, _generate_signature_ok s hse,
          signingString, signingString, hvals]

/-- Witness for C2: the spec's own example, `b ↦ 2, a ↦ 1` versus
`a ↦ 1, b ↦ 2` under secret `"s"`. -/
theorem claim_C2_witness :
    ((([("b", Value.scalar (Scalar.s "2")), ("a", Value.scalar (Scalar.s "1"))] : Params).map
        Prod.fst).Nodup ∧
      ([("b", Value.scalar (Scalar.s "2")), ("a", Value.scalar (Scalar.s "1"))] : Params).Perm
        [("a", Value.scalar (Scalar.s "1")), ("b", Value.scalar (Scalar.s "2"))]) ∧
    _generate_signature (some "s")
        [("b", Value.scalar (Scalar.s "2")), ("a", Value.scalar (Scalar.s "1"))]
      = _generate_signature (some "s")
        [("a", Value.scalar (Scalar.s "1")), ("b", Value.scalar (Scalar.s "2"))] :=
  ⟨⟨by decide, List.Perm.swap _ _ _⟩,
    claim_C2 _ _ (some "s") (by decide) (List.Perm.swap _ _ _)⟩

/-- C3: when no secret is configured (absent or empty), signing fails
with MissingSecret, and any private dispatch fails with MissingSecret
producing no `Request` value — i.e. zero transport invocations — and
leaving the session headers untouched. -/
theorem claim_C3 (cfg : DexTradeConfig) (st : ClientState) (now : Nat) (method : Method)
    (endpoint : String) (params : Option Params) (p : Params)
    (hsec : pyTruthyStr cfg.secret = false) :
    _generate_signature cfg.secret p = Except.error ApiError.missingSecret ∧
    (_make_request cfg st now method endpoint params true).1
        = Except.error ApiError.missingSecret ∧
    (_make_request cfg st now method endpoint params true).2.1 = st := by
  have hgen : ∀ q : Params,
      _generate_signature cfg.secret q = Except.error ApiError.missingSecret := by
    intro q
    cases hc : cfg.secret with
    | none => rfl
    | some s =>
        rw [hc] at hsec
        simp only [pyTruthyStr, Bool.not_eq_false', beq_iff_eq] at hsec
        simp [_generate_signature, hsec]
  refine ⟨hgen p, ?_, ?_⟩ <;> simp [_make_request, hgen]

/-- Updating a header always leaves the key present afterwards. -/
theorem mem_keys_updateHeader (hs : List (String × String)) (k v : String) :
    k ∈ (updateHeader hs k v).map Prod.fst := by
  unfold updateHeader
  split_ifs with h
  · rcases List.any_eq_true.mp h with ⟨x, hx, hxk⟩
    have hxk' : x.1 = k := by simpa using hxk
    refine List.mem_map.mpr ⟨(k, v), List.mem_map.mpr ⟨x, hx, ?_⟩, rfl⟩
    simp [hxk']
  · simp

/-- Counterexample to C4 as stated: on a client whose session already ran
a private call (`get_balances`), a subsequent `get_ticker` GET carries the
`x-auth-sign` header — the signature header persisted in the shared
session header state. -/
theorem claim_C4_counterexample :
    "x-auth-sign" ∈
      (((get_ticker (DexTradeConfig.mk "u" "w" (some "t") (some "s"))
          (get_balances (DexTradeConfig.mk "u" "w" (some "t") (some "s"))
              (DexTradeAPI_init (DexTradeConfig.mk "u" "w" (some "t") (some "s"))) 7).2.1
          9 "BTCUSDT").1.toOption.map
        (fun r => r.headers.map Prod.fst)).getD []) := by
  decide

/-- C4 amended: a public `get_ticker` sends exactly the current session
headers (so a fresh client, whose constructed header state never contains
`x-auth-sign`, sends no `x-auth-sign` header), but the `x-auth-sign`
header set by a private dispatch persists in the client's shared header
state, so a public call issued after a private call on the same client
does carry it. -/
theorem claim_C4_amended (cfg : DexTradeConfig) (hsec : pyTruthyStr cfg.secret = true) :
    (∀ st now pair, (get_ticker cfg st now pair).1
        = Except.ok ⟨Method.GET, cfg.base_url ++ "/public/ticker",
            some [("pair", Value.scalar (Scalar.s pair))], st.headers⟩) ∧
    ("x-auth-sign" ∉ (DexTradeAPI_init cfg).headers.map Prod.fst) ∧
    (∀ st now method endpoint ps,
      "x-auth-sign" ∈ (_make_request cfg st now method endpoint ps true).2.1.headers.map
        Prod.fst) := by
  refine ⟨fun st now pair => by simp [get_ticker, _make_request], ?_, ?_⟩
  · unfold DexTradeAPI_init
    split_ifs with h
    · simp [updateHeader]
    · simp
  · intro st now method endpoint ps
    cases hc : cfg.secret with
    | none => rw [hc] at hsec; simp [pyTruthyStr] at hsec
    | some s =>
        rw [hc] at hsec
        have hse : s ≠ "" := by simpa [pyTruthyStr] using hsec
        simp only [_make_request, hc]
        rw [_generate_signature_ok s hse]
        simpa using mem_keys_updateHeader st.headers "x-auth-sign" _

/-- Witness for the amended C4 at a concrete configuration. -/
theorem claim_C4_amended_witness :
    pyTruthyStr (DexTradeConfig.mk "u" "w" (some "t") (some "s")).secret = true ∧
    ((∀ st now pair,
        (get_ticker (DexTradeConfig.mk "u" "w" (some "t") (some "s")) st now pair).1
          = Except.ok ⟨Method.GET,
              (DexTradeConfig.mk "u" "w" (some "t") (some "s")).base_url ++ "/public/ticker",
              some [("pair", Value.scalar (Scalar.s pair))], st.headers⟩) ∧
      ("x-auth-sign" ∉
        (DexTradeAPI_init (DexTradeConfig.mk "u" "w" (some "t") (some "s"))).headers.map
          Prod.fst) ∧
      (∀ st now method endpoint ps,
        "x-auth-sign" ∈
          (_make_request (DexTradeConfig.mk "u" "w" (some "t") (some "s")) st now method endpoint
              ps true).2.1.headers.map Prod.fst)) :=
  ⟨by decide, claim_C4_amended (DexTradeConfig.mk "u" "w" (some "t") (some "s")) (by decide)⟩

/-- C5: on a private dispatch whose Parameter Set lacks `request_id`,
exactly one `request_id` is synthesized — the wall-clock reading `now`
(microseconds since epoch) rendered as a decimal string — appended once,
and fixed before signing: the transmitted parameter set is exactly the
input plus that one entry, and the signature is computed over exactly the
transmitted parameter set; a caller-supplied `request_id` is left
unchanged and the parameter set is transmitted as-is. -/
theorem claim_C5 (cfg : DexTradeConfig) (st : ClientState) (now : Nat) (method : Method)
    (endpoint : String) (hsec : pyTruthyStr cfg.secret = true) :
    (∀ p : Params, "request_id" ∉ keysOf p →
      (_make_request cfg st now method endpoint (some p) true).1
        = Except.ok ⟨method, cfg.base_url ++ endpoint, some (p ++ [ridEntry now]),
            updateHeader st.headers "x-auth-sign"
              (SHA256.sha256hex (signingString (p ++ [ridEntry now]) (cfg.secret.getD "")))⟩) ∧
    (∀ p : Params, "request_id" ∈ keysOf p →
      (_make_request cfg st now method endpoint (some p) true).1
        = Except.ok ⟨method, cfg.base_url ++ endpoint, some p,
            updateHeader st.headers "x-auth-sign"
              (SHA256.sha256hex (signingString p (cfg.secret.getD "")))⟩) := by
  obtain ⟨s, hc, hse⟩ : ∃ s, cfg.secret = some s ∧ s ≠ "" := by
    cases hc : cfg.secret with
    | none => rw [hc] at hsec; simp [pyTruthyStr] at hsec
    | some s =>
        rw [hc] at hsec
        exact ⟨s, rfl, by simpa [pyTruthyStr] using hsec⟩
  constructor
  · intro p hno
    have hcont : (keysOf p).contains "request_id" = false :=
      (Bool.not_eq_true _).mp (fun h => hno (List.elem_iff.mp h))
    cases p with
    | nil => simp [_make_request, hc, _generate_signature_ok s hse, keysOf]
    | cons a q =>
        simp [keysOf] at hcont
        simp [_make_request, hc, _generate_signature_ok s hse, keysOf, hcont]
  · intro p hmem
    cases p with
    | nil => simp [keysOf] at hmem
    | cons a q =>
        have hcont : (keysOf (a :: q)).contains "request_id" = true := List.elem_iff.mpr hmem
        simp [keysOf] at hcont
        simp [_make_request, hc, _generate_signature_ok s hse, keysOf, hcont]

/-- Witness for C5: a private dispatch with an empty Parameter Set and
one with a caller-supplied `request_id`. -/
theorem claim_C5_witness :
    pyTruthyStr (DexTradeConfig.mk "u" "w" none (some "s")).secret = true ∧
    ((∀ p : Params, "request_id" ∉ keysOf p →
      (_make_request (DexTradeConfig.mk "u" "w" none (some "s")) ⟨[]⟩ 7 Method.POST "/e"
          (some p) true).1
        = Except.ok ⟨Method.POST, (DexTradeConfig.mk "u" "w" none (some "s")).base_url ++ "/e",
            some (p ++ [ridEntry 7]),
            updateHeader [] "x-auth-sign"
              (SHA256.sha256hex (signingString (p ++ [ridEntry 7])
                ((DexTradeConfig.mk "u" "w" none (some "s")).secret.getD "")))⟩) ∧
    (∀ p : Params, "request_id" ∈ keysOf p →
      (_make_request (DexTradeConfig.mk "u" "w" none (some "s")) ⟨[]⟩ 7 Method.POST "/e"
          (some p) true).1
        = Except.ok ⟨Method.POST, (DexTradeConfig.mk "u" "w" none (some "s")).base_url ++ "/e",
            some p,
            updateHeader [] "x-auth-sign"
              (SHA256.sha256hex (signingString p
                ((DexTradeConfig.mk "u" "w" none (some "s")).secret.getD "")))⟩)) :=
  ⟨by decide, claim_C5 (DexTradeConfig.mk "u" "w" none (some "s")) ⟨[]⟩ 7 Method.POST "/e"
    (by decide)⟩

/-- C6: `create_order` with LIMIT and no rate fails with InvalidArgument
before any transport invocation (no `Request` value, session state
untouched); STOP_LIMIT with no stop_rate likewise; with the required
rates supplied the call dispatches and the outgoing parameters carry
`rate` (and `stop_rate` for STOP_LIMIT) as string-encoded values. -/
theorem claim_C6 (cfg : DexTradeConfig) (st : ClientState) (now : Nat) (pair : String)
    (ot : OrderType) (vol : PyFloat) (hsec : pyTruthyStr cfg.secret = true) :
    (∀ sr, create_order cfg st now pair TradeType.LIMIT ot vol none sr
        = (Except.error ApiError.invalidArgument, st, none)) ∧
    (∀ r, create_order cfg st now pair TradeType.STOP_LIMIT ot vol r none
        = (Except.error ApiError.invalidArgument, st, none)) ∧
    (∀ r req, (create_order cfg st now pair TradeType.LIMIT ot vol (some r) none).1
          = Except.ok req →
        ("rate", Value.scalar (Scalar.s r.repr)) ∈ req.params.getD []) ∧
    (∀ r sr req, (create_order cfg st now pair TradeType.STOP_LIMIT ot vol (some r)
            (some sr)).1 = Except.ok req →
        ("rate", Value.scalar (Scalar.s r.repr)) ∈ req.params.getD [] ∧
        ("stop_rate", Value.scalar (Scalar.s sr.repr)) ∈ req.params.getD []) := by
  obtain ⟨s, hc, hse⟩ : ∃ s, cfg.secret = some s ∧ s ≠ "" := by
    cases hc : cfg.secret with
    | none => rw [hc] at hsec; simp [pyTruthyStr] at hsec
    | some s =>
        rw [hc] at hsec
        exact ⟨s, rfl, by simpa [pyTruthyStr] using hsec⟩
  refine ⟨fun sr => by simp [create_order], fun r => ?_, fun r req hreq => ?_,
    fun r sr req hreq => ?_⟩
  · cases r with
    | none => simp [create_order]
    | some rv => simp [create_order]
  · rw [create_order] at hreq
    simp only [_make_request, hc, _generate_signature_ok s hse] at hreq
    simp [keysOf] at hreq
    rw [← hreq]
    simp
  · rw [create_order] at hreq
    simp only [_make_request, hc, _generate_signature_ok s hse] at hreq
    simp [keysOf] at hreq
    rw [← hreq]
    constructor <;> simp

/-- Witness for C6 at a concrete configuration and order. -/
theorem claim_C6_witness :
    pyTruthyStr (DexTradeConfig.mk "u" "w" none (some "s")).secret = true ∧
    ((∀ sr, create_order (DexTradeConfig.mk "u" "w" none (some "s")) ⟨[]⟩ 7 "BTCUSDT"
          TradeType.LIMIT OrderType.BUY ⟨"0.001"⟩ none sr
        = (Except.error ApiError.invalidArgument, ⟨[]⟩, none)) ∧
    (∀ r, create_order (DexTradeConfig.mk "u" "w" none (some "s")) ⟨[]⟩ 7 "BTCUSDT"
          TradeType.STOP_LIMIT OrderType.BUY ⟨"0.001"⟩ r none
        = (Except.error ApiError.invalidArgument, ⟨[]⟩, none)) ∧
    (∀ r req, (create_order (DexTradeConfig.mk "u" "w" none (some "s")) ⟨[]⟩ 7 "BTCUSDT"
            TradeType.LIMIT OrderType.BUY ⟨"0.001"⟩ (some r) none).1 = Except.ok req →
        ("rate", Value.scalar (Scalar.s r.repr)) ∈ req.params.getD []) ∧
    (∀ r sr req, (create_order (DexTradeConfig.mk "u" "w" none (some "s")) ⟨[]⟩ 7 "BTCUSDT"
            TradeType.STOP_LIMIT OrderType.BUY ⟨"0.001"⟩ (some r) (some sr)).1
          = Except.ok req →
        ("rate", Value.scalar (Scalar.s r.repr)) ∈ req.params.getD [] ∧
        ("stop_rate", Value.scalar (Scalar.s sr.repr)) ∈ req.params.getD [])) :=
  ⟨by decide, claim_C6 (DexTradeConfig.mk "u" "w" none (some "s")) ⟨[]⟩ 7 "BTCUSDT"
    OrderType.BUY ⟨"0.001"⟩ (by decide)⟩

/-- With a falsy secret (absent or empty), the Signing Engine fails
closed on any input. -/
theorem _generate_signature_missing (secret : Option String)
    (hsec : pyTruthyStr secret = false) (p : Params) :
    _generate_signature secret p = Except.error ApiError.missingSecret := by
  cases secret with
  | none => rfl
  | some s =>
      simp only [pyTruthyStr, Bool.not_eq_false', beq_iff_eq] at hsec
      simp [_generate_signature, hsec]

/-- Appending the `request_id` entry does not change the binding of any
other key. -/
theorem getParam?_append_rid (p : Params) (now : Nat) (k : String) (hk : k ≠ "request_id") :
    getParam? (p ++ [ridEntry now]) k = getParam? p k := by
  unfold getParam? ridEntry
  rw [List.find?_append]
  cases hfind : List.find? (fun kv => kv.1 == k) p with
  | some x => simp [hfind]
  | none =>
      have hb : (("request_id" : String) == k) = false := beq_eq_false_iff_ne.mpr (Ne.symm hk)
      simp [hfind, List.find?_cons, hb]

/-- Counterexample to C7 as stated: two distinct Parameter Sets — both
genuine dicts, differing in the values of both keys — with the same
signing input and hence the same signature under the same secret. -/
theorem claim_C7_counterexample :
    ([("a", Value.scalar (Scalar.s "12")), ("b", Value.scalar (Scalar.s "3"))] : Params)
        ≠ [("a", Value.scalar (Scalar.s "1")), ("b", Value.scalar (Scalar.s "23"))] ∧
    _generate_signature (some "s")
        [("a", Value.scalar (Scalar.s "12")), ("b", Value.scalar (Scalar.s "3"))]
      = _generate_signature (some "s")
        [("a", Value.scalar (Scalar.s "1")), ("b", Value.scalar (Scalar.s "23"))] := by
  constructor
  · decide
  · have h : signingString
        [("a", Value.scalar (Scalar.s "12")), ("b", Value.scalar (Scalar.s "3"))] "s"
        = signingString
        [("a", Value.scalar (Scalar.s "1")), ("b", Value.scalar (Scalar.s "23"))] "s" := by
      decide
    rw [_generate_signature_ok "s" (by decide), _generate_signature_ok "s" (by decide), h]

/-- C7 amended: the signature binds exactly the concatenated
sorted-value string: Parameter Sets whose concatenated value-strings
differ produce different signing inputs under every secret, and equal
signing inputs always produce equal signatures — so tampering is detected
precisely when it changes the concatenated value-string, and distinct
Parameter Sets can share a signing input and hence a signature. -/
theorem claim_C7_amended (p1 p2 : Params) (s : String)
    (h : joinAll (signatureValues p1) ≠ joinAll (signatureValues p2)) :
    signingString p1 s ≠ signingString p2 s ∧
    (∀ s2 : String, signingString p1 s2 = signingString p2 s2 →
      _generate_signature (some s2) p1 = _generate_signature (some s2) p2) := by
  constructor
  · intro heq
    apply h
    have hdata : (joinAll (signatureValues p1)).data ++ s.data
        = (joinAll (signatureValues p2)).data ++ s.data := by
      have hd := congrArg String.data heq
      simpa [signingString, String.data_append] using hd
    exact String.ext (List.append_cancel_right hdata)
  · intro s2 heq
    by_cases hse : s2 = ""
    · simp [_generate_signature, hse]
    · rw [_generate_signature_ok s2 hse p1, _generate_signature_ok s2 hse p2, heq]

/-- Witness for the amended C7 at two concrete Parameter Sets with
different signing inputs. -/
theorem claim_C7_amended_witness :
    joinAll (signatureValues [("a", Value.scalar (Scalar.s "1"))])
        ≠ joinAll (signatureValues [("a", Value.scalar (Scalar.s "2"))]) ∧
    (signingString [("a", Value.scalar (Scalar.s "1"))] "s"
        ≠ signingString [("a", Value.scalar (Scalar.s "2"))] "s" ∧
      (∀ s2 : String,
        signingString [("a", Value.scalar (Scalar.s "1"))] s2
          = signingString [("a", Value.scalar (Scalar.s "2"))] s2 →
        _generate_signature (some s2) [("a", Value.scalar (Scalar.s "1"))]
          = _generate_signature (some s2) [("a", Value.scalar (Scalar.s "2"))])) :=
  ⟨by decide, claim_C7_amended _ _ "s" (by decide)⟩

/-- Counterexample to C8 as stated: with no login token configured,
construction establishes no `content-type: application/json` header (the
source guards it inside `if config.login_token:`). -/
theorem claim_C8_counterexample :
    "content-type" ∉
      (DexTradeAPI_init (DexTradeConfig.mk "u" "w" none (some "s"))).headers.map Prod.fst := by
  decide

/-- C8 amended: the persistent header state is established exactly once
at construction, but both `login-token` and `content-type` are set only
when a login token is configured; with no login token neither is set.  No
per-call operation other than private signing alters the persistent
header set: a public dispatch leaves it unchanged and a private dispatch
changes it at most by updating `x-auth-sign`. -/
theorem claim_C8_amended (cfg : DexTradeConfig) :
    (∀ tok, cfg.login_token = some tok → tok ≠ "" →
      (DexTradeAPI_init cfg).headers
        = [("login-token", tok), ("content-type", "application/json")]) ∧
    (pyTruthyStr cfg.login_token = false → (DexTradeAPI_init cfg).headers = []) ∧
    (∀ st now method endpoint ps,
      (_make_request cfg st now method endpoint ps false).2.1 = st) ∧
    (∀ st now method endpoint ps,
      (_make_request cfg st now method endpoint ps true).2.1 = st ∨
      ∃ sig, (_make_request cfg st now method endpoint ps true).2.1
          = ⟨updateHeader st.headers "x-auth-sign" sig⟩) := by
  refine ⟨?_, ?_, fun st now method endpoint ps => by simp [_make_request],
    fun st now method endpoint ps => ?_⟩
  · intro tok htok hne
    unfold DexTradeAPI_init
    have ht : pyTruthyStr cfg.login_token = true := by simp [htok, pyTruthyStr, hne]
    rw [if_pos ht, htok]
    simp [updateHeader]
  · intro h
    unfold DexTradeAPI_init
    rw [if_neg (by simp [h])]
  · by_cases hsec : pyTruthyStr cfg.secret = true
    · obtain ⟨s, hc, hse⟩ : ∃ s, cfg.secret = some s ∧ s ≠ "" := by
        cases hc : cfg.secret with
        | none => rw [hc] at hsec; simp [pyTruthyStr] at hsec
        | some s =>
            rw [hc] at hsec
            exact ⟨s, rfl, by simpa [pyTruthyStr] using hsec⟩
      right
      simp only [_make_request, hc, _generate_signature_ok s hse]
      simp
    · left
      have hf : pyTruthyStr cfg.secret = false := (Bool.not_eq_true _).mp hsec
      simp [_make_request, _generate_signature_missing cfg.secret hf]

/-- Witness for the amended C8 at a concrete configuration. -/
theorem claim_C8_amended_witness :
    (∀ tok, (DexTradeConfig.mk "u" "w" (some "t") (some "s")).login_token = some tok →
      tok ≠ "" →
      (DexTradeAPI_init (DexTradeConfig.mk "u" "w" (some "t") (some "s"))).headers
        = [("login-token", tok), ("content-type", "application/json")]) ∧
    (pyTruthyStr (DexTradeConfig.mk "u" "w" (some "t") (some "s")).login_token = false →
      (DexTradeAPI_init (DexTradeConfig.mk "u" "w" (some "t") (some "s"))).headers = []) ∧
    (∀ st now method endpoint ps,
      (_make_request (DexTradeConfig.mk "u" "w" (some "t") (some "s")) st now method endpoint
          ps false).2.1 = st) ∧
    (∀ st now method endpoint ps,
      (_make_request (DexTradeConfig.mk "u" "w" (some "t") (some "s")) st now method endpoint
          ps true).2.1 = st ∨
      ∃ sig, (_make_request (DexTradeConfig.mk "u" "w" (some "t") (some "s")) st now method
          endpoint ps true).2.1 = ⟨updateHeader st.headers "x-auth-sign" sig⟩) :=
  claim_C8_amended (DexTradeConfig.mk "u" "w" (some "t") (some "s"))

/-- C9: a dispatch never mutates the caller's Parameter Set except for
the possible injection of `request_id` on a private call: afterwards
every key other than `request_id` maps to exactly the value it had on
entry, and no key other than `request_id` was added or removed. -/
theorem claim_C9 (cfg : DexTradeConfig) (st : ClientState) (now : Nat) (method : Method)
    (endpoint : String) (priv : Bool) (p : Params) :
    ∀ q : Params, (_make_request cfg st now method endpoint (some p) priv).2.2 = some q →
      (∀ k, k ≠ "request_id" → getParam? q k = getParam? p k) ∧
      (∀ k, k ≠ "request_id" → (k ∈ keysOf q ↔ k ∈ keysOf p)) := by
  have hgen : (∀ r : Params, _generate_signature cfg.secret r
        = Except.error ApiError.missingSecret) ∨ (∃ s, s ≠ "" ∧ cfg.secret = some s) := by
    by_cases hsec : pyTruthyStr cfg.secret = true
    · cases hc : cfg.secret with
      | none => rw [hc] at hsec; simp [pyTruthyStr] at hsec
      | some s =>
          rw [hc] at hsec
          exact Or.inr ⟨s, by simpa [pyTruthyStr] using hsec, rfl⟩
    · exact Or.inl (_generate_signature_missing cfg.secret ((Bool.not_eq_true _).mp hsec))
  have hafter : (_make_request cfg st now method endpoint (some p) priv).2.2 = some p ∨
      (_make_request cfg st now method endpoint (some p) priv).2.2
        = some (p ++ [ridEntry now]) := by
    cases priv with
    | false => exact Or.inl (by simp [_make_request])
    | true =>
        cases p with
        | nil =>
            left
            rcases hgen with he | ⟨s, hse, hc⟩
            · simp [_make_request, he]
            · simp [_make_request, hc, _generate_signature_ok s hse]
        | cons a q =>
            by_cases hr : "request_id" ∈ keysOf (a :: q)
            · left
              rcases hgen with he | ⟨s, hse, hc⟩
              · simp [_make_request, he, hr]
              · simp [_make_request, hc, _generate_signature_ok s hse, hr]
            · right
              rcases hgen with he | ⟨s, hse, hc⟩
              · simp [_make_request, he, hr]
              · simp [_make_request, hc, _generate_signature_ok s hse, hr]
  intro q hq
  rcases hafter with h | h
  · rw [h] at hq
    injection hq with hq'
    subst hq'
    exact ⟨fun k _ => rfl, fun k _ => Iff.rfl⟩
  · rw [h] at hq
    injection hq with hq'
    subst hq'
    constructor
    · intro k hk
      exact getParam?_append_rid p now k hk
    · intro k hk
      simp [keysOf, ridEntry, hk]

/-- Witness for C9 at a concrete public dispatch. -/
theorem claim_C9_witness :
    ((_make_request (DexTradeConfig.mk "u" "w" none none) ⟨[]⟩ 0 Method.GET "/public/ticker"
        (some [("pair", Value.scalar (Scalar.s "BTCUSDT"))]) false).2.2
      = some [("pair", Value.scalar (Scalar.s "BTCUSDT"))]) ∧
    ((∀ k, k ≠ "request_id" →
        getParam? [("pair", Value.scalar (Scalar.s "BTCUSDT"))] k
          = getParam? [("pair", Value.scalar (Scalar.s "BTCUSDT"))] k) ∧
      (∀ k, k ≠ "request_id" →
        (k ∈ keysOf [("pair", Value.scalar (Scalar.s "BTCUSDT"))]
          ↔ k ∈ keysOf [("pair", Value.scalar (Scalar.s "BTCUSDT"))]))) :=
  ⟨by decide,
    claim_C9 (DexTradeConfig.mk "u" "w" none none) ⟨[]⟩ 0 Method.GET "/public/ticker" false
      [("pair", Value.scalar (Scalar.s "BTCUSDT"))]
      [("pair", Value.scalar (Scalar.s "BTCUSDT"))] (by decide)⟩

/-- C10: on the missing-secret error path of a private dispatch, a
non-empty Parameter Set lacking `request_id` has already received the
synthesized `request_id` entry when MissingSecret is raised — the
caller's object is left mutated — whereas an absent or empty Parameter
Set is replaced by a fresh dict and the caller's object is untouched. -/
theorem claim_C10 (cfg : DexTradeConfig) (st : ClientState) (now : Nat) (method : Method)
    (endpoint : String) (p : Params) (hsec : pyTruthyStr cfg.secret = false)
    (hne : p ≠ []) (hno : "request_id" ∉ keysOf p) :
    _make_request cfg st now method endpoint (some p) true
        = (Except.error ApiError.missingSecret, st, some (p ++ [ridEntry now])) ∧
    _make_request cfg st now method endpoint none true
        = (Except.error ApiError.missingSecret, st, none) ∧
    _make_request cfg st now method endpoint (some []) true
        = (Except.error ApiError.missingSecret, st, some []) := by
  refine ⟨?_, ?_, ?_⟩
  · cases p with
    | nil => exact absurd rfl hne
    | cons a q =>
        simp [_make_request, _generate_signature_missing cfg.secret hsec, hno]
  · simp [_make_request, _generate_signature_missing cfg.secret hsec]
  · simp [_make_request, _generate_signature_missing cfg.secret hsec]

/-- Witness for C10 at a concrete unsigned private call. -/
theorem claim_C10_witness :
    (pyTruthyStr (DexTradeConfig.mk "u" "w" none none).secret = false ∧
      ([("pair", Value.scalar (Scalar.s "BTCUSDT"))] : Params) ≠ [] ∧
      "request_id" ∉ keysOf [("pair", Value.scalar (Scalar.s "BTCUSDT"))]) ∧
    (_make_request (DexTradeConfig.mk "u" "w" none none) ⟨[]⟩ 7 Method.POST "/e"
        (some [("pair", Value.scalar (Scalar.s "BTCUSDT"))]) true
        = (Except.error ApiError.missingSecret, ⟨[]⟩,
            some ([("pair", Value.scalar (Scalar.s "BTCUSDT"))] ++ [ridEntry 7])) ∧
      _make_request (DexTradeConfig.mk "u" "w" none none) ⟨[]⟩ 7 Method.POST "/e" none true
        = (Except.error ApiError.missingSecret, ⟨[]⟩, none) ∧
      _make_request (DexTradeConfig.mk "u" "w" none none) ⟨[]⟩ 7 Method.POST "/e" (some [])
          true
        = (Except.error ApiError.missingSecret, ⟨[]⟩, some [])) :=
  ⟨⟨by decide, by decide, by decide⟩,
    claim_C10 (DexTradeConfig.mk "u" "w" none none) ⟨[]⟩ 7 Method.POST "/e"
      [("pair", Value.scalar (Scalar.s "BTCUSDT"))] (by decide) (by decide) (by decide)⟩

/-- Witness for C3 with an empty-string secret. -/
theorem claim_C3_witness :
    pyTruthyStr (DexTradeConfig.mk "u" "w" none (some "")).secret = false ∧
    (_generate_signature (DexTradeConfig.mk "u" "w" none (some "")).secret []
        = Except.error ApiError.missingSecret ∧
      (_make_request (DexTradeConfig.mk "u" "w" none (some "")) ⟨[]⟩ 0 Method.POST "/e" none
            true).1
        = Except.error ApiError.missingSecret ∧
      (_make_request (DexTradeConfig.mk "u" "w" none (some "")) ⟨[]⟩ 0 Method.POST "/e" none
            true).2.1 = ⟨[]⟩) :=
  ⟨by decide, claim_C3 (DexTradeConfig.mk "u" "w" none (some "")) ⟨[]⟩ 0 Method.POST "/e" none []
    (by decide)⟩
